import Mathlib

/-!
Verification of the traffic-flow simulation engine of flowlight-simulate
(src/components/SimulationSection.tsx).

The development shallowly embeds the simulation state and the three update
routines of the source component:

* the one-second traffic-light update installed by the light-timing effect
  (the setInterval body around lines 251-381 of SimulationSection.tsx),
* the two-second optimization adjustment (lines 149-242), and
* the per-frame vehicle kinematics and statistics code
  (updateVehicles, lines 787-910, and updateStats, lines 122-143).

JavaScript numbers are modelled as rationals (and as integers where the
source only ever stores integral values); the per-tick reads of the
surrounding component state (waiting counts, algorithm selection, the
optimization switch) are passed in as an explicit environment, and calls
to Math.random are passed in as explicit rational draws.
-/

namespace Flowlight

/-- Light phase values of the source's LightState union type. -/
inductive LightState
  | red
  | yellow
  | green
deriving DecidableEq, Repr

/-- The two light axes of the source's LightDirection union type. -/
inductive LightDirection
  | ns
  | ew
deriving DecidableEq, Repr

/-- One traffic light record: state, duration, timeLeft, countdown
(the direction tag of the source record is kept implicitly by the position
of the light inside a LightPair). -/
structure TrafficLight where
  state : LightState
  duration : Int
  timeLeft : Int
  countdown : Int
deriving DecidableEq, Repr

/-- The pair of lights held in the trafficLights state array. -/
structure LightPair where
  ns : TrafficLight
  ew : TrafficLight
deriving DecidableEq, Repr

/-- The algorithmType configuration value. -/
inductive AlgorithmType
  | fixed
  | adaptive
  | predictive
deriving DecidableEq, Repr

/-- The component state read by one run of the light-update or optimization
interval body: the optimization switch, the selected algorithm, and the
waiting/moving vehicle counts per axis computed from the vehicles array. -/
structure Env where
  optimizationEnabled : Bool
  algorithmType : AlgorithmType
  nsWaiting : Nat
  ewWaiting : Nat
  nsApproaching : Nat
  ewApproaching : Nat
deriving Repr

/-- Initial value of the trafficLights state (SimulationSection.tsx lines
52-53). -/
def initLights : LightPair :=
  ⟨⟨LightState.green, 20, 20, 0⟩, ⟨LightState.red, 20, 0, 3⟩⟩

/-- The timeLeft value assigned to a light at its yellow-to-red transition
(lines 286-308 and 325-347): the arguments are the waiting and
not-waiting counts of the opposite axis. -/
def redPhaseTimeLeft (env : Env) (otherWaiting otherApproaching : Nat) : Int :=
  if env.optimizationEnabled then
    match env.algorithmType with
    | AlgorithmType.adaptive =>
        max 15 (min 30 (15 + (otherWaiting : Int) / 3))
    | AlgorithmType.predictive =>
        max 20 (min 35 (20 +
          Int.floor (((otherWaiting : ℚ) + (otherApproaching : ℚ) * 0.5) / 3)))
    | AlgorithmType.fixed => 20
  else 20

/-- Countdown decrement performed at the top of the light update (lines
262-269): only a light in the red state with a positive countdown is
decremented. -/
def decrementCountdown (l : TrafficLight) : TrafficLight :=
  if l.state = LightState.red ∧ 0 < l.countdown then
    { l with countdown := max 0 (l.countdown - 1) }
  else l

/-- First phase of the light update: countdown decrements followed by the
clamped timeLeft decrements of both lights (lines 262-273). -/
def decrementPhase (p : LightPair) : LightPair :=
  let ns := decrementCountdown p.ns
  let ew := decrementCountdown p.ew
  ⟨{ ns with timeLeft := max 0 (ns.timeLeft - 1) },
   { ew with timeLeft := max 0 (ew.timeLeft - 1) }⟩

/-- Processing of the north-south light's transitions (lines 276-313):
green to yellow, or yellow to red, the latter also starting the east-west
countdown. -/
def nsTransitionPhase (env : Env) (p : LightPair) : LightPair :=
  if p.ns.timeLeft = 0 then
    if p.ns.state = LightState.green then
      ⟨{ p.ns with state := LightState.yellow, timeLeft := 3 }, p.ew⟩
    else if p.ns.state = LightState.yellow then
      let tl := redPhaseTimeLeft env env.ewWaiting env.ewApproaching
      ⟨{ p.ns with state := LightState.red, timeLeft := tl },
       { p.ew with countdown := 3 }⟩
    else p
  else p

/-- Processing of the east-west light's transitions (lines 315-352),
mirroring nsTransitionPhase. -/
def ewTransitionPhase (env : Env) (p : LightPair) : LightPair :=
  if p.ew.timeLeft = 0 then
    if p.ew.state = LightState.green then
      ⟨p.ns, { p.ew with state := LightState.yellow, timeLeft := 3 }⟩
    else if p.ew.state = LightState.yellow then
      let tl := redPhaseTimeLeft env env.nsWaiting env.nsApproaching
      ⟨{ p.ns with countdown := 3 },
       { p.ew with state := LightState.red, timeLeft := tl }⟩
    else p
  else p

/-- Red-to-green gate for the north-south light (lines 355-359): when its
countdown has run out and both lights are red it turns green for its
current duration. -/
def nsGate (p : LightPair) : LightPair :=
  if p.ns.countdown = 0 ∧ p.ns.state = LightState.red ∧ p.ew.state = LightState.red then
    ⟨{ p.ns with state := LightState.green, timeLeft := p.ns.duration }, p.ew⟩
  else p

/-- Red-to-green gate for the east-west light (lines 361-365). -/
def ewGate (p : LightPair) : LightPair :=
  if p.ew.countdown = 0 ∧ p.ew.state = LightState.red ∧ p.ns.state = LightState.red then
    ⟨p.ns, { p.ew with state := LightState.green, timeLeft := p.ew.duration }⟩
  else p

/-- Safety check run at the end of every light update (lines 367-377): if
both lights are green, the one with more timeLeft keeps green and the other
is forced to red; the north-south light wins ties. -/
def safetyCheck (p : LightPair) : LightPair :=
  if p.ns.state = LightState.green ∧ p.ew.state = LightState.green then
    if p.ew.timeLeft ≤ p.ns.timeLeft then
      ⟨p.ns, { p.ew with state := LightState.red, timeLeft := p.ns.timeLeft + 3 }⟩
    else
      ⟨{ p.ns with state := LightState.red, timeLeft := p.ew.timeLeft + 3 }, p.ew⟩
  else p

/-- The light-pair state just before the safety check of one light update. -/
def preSafety (env : Env) (p : LightPair) : LightPair :=
  ewGate (nsGate (ewTransitionPhase env (nsTransitionPhase env (decrementPhase p))))

/-- One run of the one-second light update interval body (lines 251-381). -/
def lightTick (env : Env) (p : LightPair) : LightPair :=
  safetyCheck (preSafety env p)

/-- New duration chosen by the adaptive optimization branch for one light
(lines 163-191); the waiting counts are those of the enclosing interval
body. -/
def adaptiveNewDuration (dir : LightDirection) (nsW ewW : Nat) (d : Int) : Int :=
  if dir = LightDirection.ns ∧ (nsW : ℚ) < (ewW : ℚ) * 0.7 then max 10 (d - 2)
  else if dir = LightDirection.ew ∧ (ewW : ℚ) < (nsW : ℚ) * 0.7 then max 10 (d - 2)
  else if dir = LightDirection.ns ∧ (nsW : ℚ) > (ewW : ℚ) * 1.5 then min 30 (d + 3)
  else if dir = LightDirection.ew ∧ (ewW : ℚ) > (nsW : ℚ) * 1.5 then min 30 (d + 3)
  else d

/-- New duration chosen by the predictive optimization branch for one light
(lines 202-240), from the weighted traffic scores of both axes. -/
def predictiveNewDuration (dir : LightDirection) (nsW ewW nsA ewA : Nat) (d : Int) : Int :=
  let nsTraffic : ℚ := (nsW : ℚ) * 1.2 + (nsA : ℚ) * 0.5
  let ewTraffic : ℚ := (ewW : ℚ) * 1.2 + (ewA : ℚ) * 0.5
  if dir = LightDirection.ns then
    if nsTraffic < ewTraffic * 0.6 then max 12 (d - 3)
    else if nsTraffic > ewTraffic * 1.5 then min 35 (d + 5)
    else d
  else
    if ewTraffic < nsTraffic * 0.6 then max 12 (d - 3)
    else if ewTraffic > nsTraffic * 1.5 then min 35 (d + 5)
    else d

/-- Application of an optimization adjustment to one light: only a light
currently green is touched; its duration is replaced and its timeLeft is
capped by the new duration (lines 166-189 and 203-239). -/
def adjustLight (newDuration : Int → Int) (l : TrafficLight) : TrafficLight :=
  if l.state ≠ LightState.green then l
  else
    let d := newDuration l.duration
    { l with duration := d, timeLeft := min d l.timeLeft }

/-- One run of the two-second optimization interval body (lines 149-242):
it exists only while optimization is enabled, and the fixed algorithm has
no branch, so those cases leave the lights unchanged. -/
def optimizeStep (env : Env) (p : LightPair) : LightPair :=
  if env.optimizationEnabled then
    match env.algorithmType with
    | AlgorithmType.adaptive =>
        ⟨adjustLight (adaptiveNewDuration LightDirection.ns env.nsWaiting env.ewWaiting) p.ns,
         adjustLight (adaptiveNewDuration LightDirection.ew env.nsWaiting env.ewWaiting) p.ew⟩
    | AlgorithmType.predictive =>
        ⟨adjustLight (predictiveNewDuration LightDirection.ns env.nsWaiting env.ewWaiting
            env.nsApproaching env.ewApproaching) p.ns,
         adjustLight (predictiveNewDuration LightDirection.ew env.nsWaiting env.ewWaiting
            env.nsApproaching env.ewApproaching) p.ew⟩
    | AlgorithmType.fixed => p
  else p

/-- Light-pair states reachable from the initial state under any
interleaving of one-second light updates and optimization adjustments,
with arbitrary per-run component state (vehicle counts and
configuration). -/
inductive ReachableLights : LightPair → Prop
  | init : ReachableLights initLights
  | tick (env : Env) {p : LightPair} :
      ReachableLights p → ReachableLights (lightTick env p)
  | optimize (env : Env) {p : LightPair} :
      ReachableLights p → ReachableLights (optimizeStep env p)

/-! ### Nonnegativity of the light timers -/

/-- All six timer fields of the light pair are nonnegative. -/
def TimersNonneg (p : LightPair) : Prop :=
  0 ≤ p.ns.timeLeft ∧ 0 ≤ p.ns.countdown ∧ 0 ≤ p.ns.duration ∧
  0 ≤ p.ew.timeLeft ∧ 0 ≤ p.ew.countdown ∧ 0 ≤ p.ew.duration

theorem redPhaseTimeLeft_nonneg (env : Env) (w a : Nat) :
    0 ≤ redPhaseTimeLeft env w a := by
  unfold redPhaseTimeLeft
  split
  · split
    · exact le_trans (by norm_num) (le_max_left _ _)
    · exact le_trans (by norm_num) (le_max_left _ _)
    · norm_num
  · norm_num

theorem decrementPhase_timersNonneg {p : LightPair} (h : TimersNonneg p) :
    TimersNonneg (decrementPhase p) := by
  obtain ⟨h1, h2, h3, h4, h5, h6⟩ := h
  unfold decrementPhase decrementCountdown
  split_ifs <;> refine ⟨?_, ?_, ?_, ?_, ?_, ?_⟩ <;> simp <;> omega

theorem nsTransitionPhase_timersNonneg (env : Env) {p : LightPair}
    (h : TimersNonneg p) : TimersNonneg (nsTransitionPhase env p) := by
  obtain ⟨h1, h2, h3, h4, h5, h6⟩ := h
  have hr := redPhaseTimeLeft_nonneg env env.ewWaiting env.ewApproaching
  unfold nsTransitionPhase
  split_ifs <;> exact ⟨by simp_all, by simp_all, by simp_all, by simp_all, by simp_all, by simp_all⟩

theorem ewTransitionPhase_timersNonneg (env : Env) {p : LightPair}
    (h : TimersNonneg p) : TimersNonneg (ewTransitionPhase env p) := by
  obtain ⟨h1, h2, h3, h4, h5, h6⟩ := h
  have hr := redPhaseTimeLeft_nonneg env env.nsWaiting env.nsApproaching
  unfold ewTransitionPhase
  split_ifs <;> exact ⟨by simp_all, by simp_all, by simp_all, by simp_all, by simp_all, by simp_all⟩

theorem nsGate_timersNonneg {p : LightPair} (h : TimersNonneg p) :
    TimersNonneg (nsGate p) := by
  obtain ⟨h1, h2, h3, h4, h5, h6⟩ := h
  unfold nsGate
  split_ifs <;> exact ⟨by simp_all, by simp_all, by simp_all, by simp_all, by simp_all, by simp_all⟩

theorem ewGate_timersNonneg {p : LightPair} (h : TimersNonneg p) :
    TimersNonneg (ewGate p) := by
  obtain ⟨h1, h2, h3, h4, h5, h6⟩ := h
  unfold ewGate
  split_ifs <;> exact ⟨by simp_all, by simp_all, by simp_all, by simp_all, by simp_all, by simp_all⟩

theorem safetyCheck_timersNonneg {p : LightPair} (h : TimersNonneg p) :
    TimersNonneg (safetyCheck p) := by
  obtain ⟨h1, h2, h3, h4, h5, h6⟩ := h
  unfold safetyCheck
  split_ifs <;> refine ⟨?_, ?_, ?_, ?_, ?_, ?_⟩ <;> dsimp only <;> omega

theorem lightTick_timersNonneg (env : Env) {p : LightPair} (h : TimersNonneg p) :
    TimersNonneg (lightTick env p) :=
  safetyCheck_timersNonneg (ewGate_timersNonneg (nsGate_timersNonneg
    (ewTransitionPhase_timersNonneg env (nsTransitionPhase_timersNonneg env
      (decrementPhase_timersNonneg h)))))

theorem adjustLight_timersNonneg {f : Int → Int}
    (hf : ∀ d : Int, 0 ≤ d → 0 ≤ f d) {l : TrafficLight}
    (h1 : 0 ≤ l.timeLeft) (h2 : 0 ≤ l.countdown) (h3 : 0 ≤ l.duration) :
    0 ≤ (adjustLight f l).timeLeft ∧ 0 ≤ (adjustLight f l).countdown ∧
    0 ≤ (adjustLight f l).duration := by
  unfold adjustLight
  split_ifs
  · exact ⟨h1, h2, h3⟩
  · have := hf l.duration h3
    refine ⟨?_, by simpa, by simpa⟩
    simp only
    omega

theorem adaptiveNewDuration_nonneg (dir : LightDirection) (nsW ewW : Nat)
    {d : Int} (hd : 0 ≤ d) : 0 ≤ adaptiveNewDuration dir nsW ewW d := by
  unfold adaptiveNewDuration
  split_ifs <;> omega

theorem predictiveNewDuration_nonneg (dir : LightDirection) (nsW ewW nsA ewA : Nat)
    {d : Int} (hd : 0 ≤ d) : 0 ≤ predictiveNewDuration dir nsW ewW nsA ewA d := by
  unfold predictiveNewDuration
  dsimp only
  split_ifs <;> omega

theorem optimizeStep_timersNonneg (env : Env) {p : LightPair} (h : TimersNonneg p) :
    TimersNonneg (optimizeStep env p) := by
  obtain ⟨h1, h2, h3, h4, h5, h6⟩ := h
  unfold optimizeStep
  split
  · split
    · obtain ⟨a1, a2, a3⟩ := adjustLight_timersNonneg
        (fun d hd => adaptiveNewDuration_nonneg LightDirection.ns env.nsWaiting env.ewWaiting hd)
        h1 h2 h3
      obtain ⟨b1, b2, b3⟩ := adjustLight_timersNonneg
        (fun d hd => adaptiveNewDuration_nonneg LightDirection.ew env.nsWaiting env.ewWaiting hd)
        h4 h5 h6
      exact ⟨a1, a2, a3, b1, b2, b3⟩
    · obtain ⟨a1, a2, a3⟩ := adjustLight_timersNonneg
        (fun d hd => predictiveNewDuration_nonneg LightDirection.ns env.nsWaiting env.ewWaiting
          env.nsApproaching env.ewApproaching hd) h1 h2 h3
      obtain ⟨b1, b2, b3⟩ := adjustLight_timersNonneg
        (fun d hd => predictiveNewDuration_nonneg LightDirection.ew env.nsWaiting env.ewWaiting
          env.nsApproaching env.ewApproaching hd) h4 h5 h6
      exact ⟨a1, a2, a3, b1, b2, b3⟩
    · exact ⟨h1, h2, h3, h4, h5, h6⟩
  · exact ⟨h1, h2, h3, h4, h5, h6⟩

theorem reachable_timersNonneg {p : LightPair} (h : ReachableLights p) :
    TimersNonneg p := by
  induction h with
  | init => refine ⟨?_, ?_, ?_, ?_, ?_, ?_⟩ <;> norm_num [initLights]
  | tick env _ ih => exact lightTick_timersNonneg env ih
  | optimize env _ ih => exact optimizeStep_timersNonneg env ih

/-! ### Mutual exclusion of green lights -/

theorem safetyCheck_not_both_green (p : LightPair) :
    ¬((safetyCheck p).ns.state = LightState.green ∧
      (safetyCheck p).ew.state = LightState.green) := by
  unfold safetyCheck
  split_ifs with h1 h2 <;> simp_all

/-- Claim C1: after every one-second light update at most one of the two
axes is green, and whenever the update reaches its final safety check with
both axes green, the axis with more timeLeft keeps green and the other is
forced to red, ties keeping the north-south axis green. -/
theorem c1_green_mutual_exclusion (env : Env) (p : LightPair) :
    (¬((lightTick env p).ns.state = LightState.green ∧
       (lightTick env p).ew.state = LightState.green)) ∧
    ((preSafety env p).ns.state = LightState.green ∧
        (preSafety env p).ew.state = LightState.green →
      ((preSafety env p).ew.timeLeft ≤ (preSafety env p).ns.timeLeft →
        (lightTick env p).ns.state = LightState.green ∧
        (lightTick env p).ew.state = LightState.red) ∧
      ((preSafety env p).ns.timeLeft < (preSafety env p).ew.timeLeft →
        (lightTick env p).ew.state = LightState.green ∧
        (lightTick env p).ns.state = LightState.red)) := by
  refine ⟨safetyCheck_not_both_green _, fun hb => ⟨fun hle => ?_, fun hlt => ?_⟩⟩
  · unfold lightTick safetyCheck
    split_ifs <;> simp_all
  · unfold lightTick safetyCheck
    split_ifs <;> simp_all
    omega

/-- An environment with optimization disabled, as used for concrete runs. -/
def envOff : Env := ⟨false, AlgorithmType.fixed, 0, 0, 0, 0⟩

/-- A light pair in which both axes are green, exercising the safety
check. -/
def bothGreenPair : LightPair :=
  ⟨⟨LightState.green, 20, 4, 0⟩, ⟨LightState.green, 20, 6, 0⟩⟩

/-- Witness for c1_green_mutual_exclusion: from a both-green pair where the
east-west light has more timeLeft, the update keeps east-west green and
forces north-south to red. -/
theorem c1_green_mutual_exclusion_witness :
    (lightTick envOff bothGreenPair).ew.state = LightState.green ∧
    (lightTick envOff bothGreenPair).ns.state = LightState.red :=
  ((c1_green_mutual_exclusion envOff bothGreenPair).2 (by decide)).2 (by decide)

/-- Claim C10: after a light update from any reachable state, both
timeLeft values and both countdown values are nonnegative. -/
theorem c10_timers_nonneg_after_tick (env : Env) {p : LightPair}
    (h : ReachableLights p) :
    0 ≤ (lightTick env p).ns.timeLeft ∧ 0 ≤ (lightTick env p).ns.countdown ∧
    0 ≤ (lightTick env p).ew.timeLeft ∧ 0 ≤ (lightTick env p).ew.countdown := by
  obtain ⟨a, b, _, d, e, _⟩ := lightTick_timersNonneg env (reachable_timersNonneg h)
  exact ⟨a, b, d, e⟩

/-- Witness for c10_timers_nonneg_after_tick at the initial state. -/
theorem c10_timers_nonneg_after_tick_witness :
    0 ≤ (lightTick envOff initLights).ns.timeLeft ∧
    0 ≤ (lightTick envOff initLights).ns.countdown ∧
    0 ≤ (lightTick envOff initLights).ew.timeLeft ∧
    0 ≤ (lightTick envOff initLights).ew.countdown :=
  c10_timers_nonneg_after_tick envOff ReachableLights.init

/-! ### Starvation of the east-west axis -/

/-- Inductive invariant: the north-south countdown is stuck at zero (it is
armed only by an east-west yellow-to-red transition) and the east-west
light is red with its initial duration. -/
def EwStarved (p : LightPair) : Prop :=
  p.ns.countdown = 0 ∧ p.ew.state = LightState.red ∧ p.ew.duration = 20

theorem decrementPhase_ewStarved {p : LightPair} (h : EwStarved p) :
    EwStarved (decrementPhase p) := by
  obtain ⟨h1, h2, h3⟩ := h
  unfold decrementPhase decrementCountdown EwStarved
  split_ifs <;> simp_all

theorem nsTransitionPhase_ewStarved (env : Env) {p : LightPair}
    (h : EwStarved p) : EwStarved (nsTransitionPhase env p) := by
  obtain ⟨h1, h2, h3⟩ := h
  unfold nsTransitionPhase EwStarved
  split_ifs <;> simp_all

theorem ewTransitionPhase_ewStarved (env : Env) {p : LightPair}
    (h : EwStarved p) : EwStarved (ewTransitionPhase env p) := by
  obtain ⟨h1, h2, h3⟩ := h
  unfold ewTransitionPhase EwStarved
  split_ifs <;> simp_all

theorem nsGate_ewStarved_nsNotRed {p : LightPair} (h : EwStarved p) :
    EwStarved (nsGate p) ∧ (nsGate p).ns.state ≠ LightState.red := by
  obtain ⟨h1, h2, h3⟩ := h
  unfold nsGate EwStarved
  split_ifs with hc
  · simp_all
  · refine ⟨⟨h1, h2, h3⟩, fun hred => hc ⟨h1, hred, h2⟩⟩

theorem ewGate_ewStarved {p : LightPair} (h : EwStarved p)
    (hns : p.ns.state ≠ LightState.red) : EwStarved (ewGate p) := by
  unfold ewGate
  rw [if_neg]
  · exact h
  · rintro ⟨-, -, hr⟩
    exact hns hr

theorem safetyCheck_ewStarved {p : LightPair} (h : EwStarved p) :
    EwStarved (safetyCheck p) := by
  unfold safetyCheck
  rw [if_neg]
  · exact h
  · rintro ⟨-, hg⟩
    rw [h.2.1] at hg
    exact LightState.noConfusion hg

theorem lightTick_ewStarved (env : Env) {p : LightPair} (h : EwStarved p) :
    EwStarved (lightTick env p) := by
  have h3 := ewTransitionPhase_ewStarved env
    (nsTransitionPhase_ewStarved env (decrementPhase_ewStarved h))
  obtain ⟨h4, hns⟩ := nsGate_ewStarved_nsNotRed h3
  exact safetyCheck_ewStarved (ewGate_ewStarved h4 hns)

theorem adjustLight_nongreen {f : Int → Int} {l : TrafficLight}
    (h : l.state ≠ LightState.green) : adjustLight f l = l := by
  unfold adjustLight
  rw [if_pos h]

theorem adjustLight_countdown (f : Int → Int) (l : TrafficLight) :
    (adjustLight f l).countdown = l.countdown := by
  unfold adjustLight
  split_ifs <;> rfl

theorem optimizeStep_ewStarved (env : Env) {p : LightPair} (h : EwStarved p) :
    EwStarved (optimizeStep env p) := by
  obtain ⟨h1, h2, h3⟩ := h
  have hew : p.ew.state ≠ LightState.green := by
    rw [h2]
    exact fun hc => LightState.noConfusion hc
  unfold optimizeStep
  split
  · split <;>
      first
      | exact ⟨h1, h2, h3⟩
      | exact ⟨by rw [adjustLight_countdown]; exact h1,
          by rw [adjustLight_nongreen hew]; exact h2,
          by rw [adjustLight_nongreen hew]; exact h3⟩
  · exact ⟨h1, h2, h3⟩

theorem reachable_ewStarved {p : LightPair} (h : ReachableLights p) :
    EwStarved p := by
  induction h with
  | init => exact ⟨rfl, rfl, rfl⟩
  | tick env _ ih => exact lightTick_ewStarved env ih
  | optimize env _ ih => exact optimizeStep_ewStarved env ih

/-- Counterexample to claim C3: the scenario "NS waiting 10, EW waiting 1
gives a next EW green of 10 seconds" never happens, because no reachable
light state has the east-west light green at all (with any duration, let
alone 10). -/
theorem c3_counterexample :
    (∃ p : LightPair, ReachableLights p ∧ p.ew.state = LightState.green ∧
      p.ew.duration = 10) ↔ False := by
  constructor
  · rintro ⟨p, hp, hg, -⟩
    have hs := reachable_ewStarved hp
    rw [hs.2.1] at hg
    exact LightState.noConfusion hg
  · exact False.elim

/-- Claim C3 (amended): under adaptive optimization the ratio thresholds
only adjust the duration of a light that is currently green, in steps of
-2 clamped at 10 or +3 clamped at 30 (with counts NS=10, EW=1 the EW
formula gives max 10 (d - 2), the NS formula min 30 (d + 3)); the
yellow-to-red transition instead assigns the transitioning axis a red
time of max 15 (min 30 (15 + otherWaiting / 3)), which is 15 for one
waiting vehicle; and the EW axis never receives a green phase at all:
every reachable state keeps it red with duration 20. -/
theorem c3_adaptive_behavior (p : LightPair) (h : ReachableLights p) :
    (p.ew.state = LightState.red ∧ p.ew.duration = 20) ∧
    (∀ d : Int, adaptiveNewDuration LightDirection.ew 10 1 d = max 10 (d - 2)) ∧
    (∀ d : Int, adaptiveNewDuration LightDirection.ns 10 1 d = min 30 (d + 3)) ∧
    redPhaseTimeLeft ⟨true, AlgorithmType.adaptive, 10, 1, 0, 0⟩ 1 0 = 15 := by
  obtain ⟨-, h2, h3⟩ := reachable_ewStarved h
  refine ⟨⟨h2, h3⟩, fun d => ?_, fun d => ?_, ?_⟩
  · unfold adaptiveNewDuration
    norm_num
  · unfold adaptiveNewDuration
    norm_num
    exact fun hc => absurd hc (by decide)
  · unfold redPhaseTimeLeft
    norm_num

/-- Witness for c3_adaptive_behavior at the initial state. -/
theorem c3_adaptive_behavior_witness :
    (initLights.ew.state = LightState.red ∧ initLights.ew.duration = 20) ∧
    (∀ d : Int, adaptiveNewDuration LightDirection.ew 10 1 d = max 10 (d - 2)) ∧
    (∀ d : Int, adaptiveNewDuration LightDirection.ns 10 1 d = min 30 (d + 3)) ∧
    redPhaseTimeLeft ⟨true, AlgorithmType.adaptive, 10, 1, 0, 0⟩ 1 0 = 15 :=
  c3_adaptive_behavior initLights ReachableLights.init

/-! ### Duration clamp bounds -/

/-- Claim C2 (amended): every value computed at a yellow-to-red transition
lies inside the active algorithm's documented clamp range, and a periodic
optimization adjustment keeps a duration inside the active algorithm's
range whenever the duration it starts from already lies inside that range;
a duration inherited from a different algorithm can leave the range (see
the counterexample, where adaptive computes 33). -/
theorem c2_duration_bounds :
    (∀ env : Env, ∀ w a : Nat, env.optimizationEnabled = true →
      (env.algorithmType = AlgorithmType.adaptive →
        10 ≤ redPhaseTimeLeft env w a ∧ redPhaseTimeLeft env w a ≤ 30) ∧
      (env.algorithmType = AlgorithmType.predictive →
        12 ≤ redPhaseTimeLeft env w a ∧ redPhaseTimeLeft env w a ≤ 35)) ∧
    (∀ (dir : LightDirection) (nsW ewW : Nat) (d : Int), 10 ≤ d → d ≤ 30 →
      10 ≤ adaptiveNewDuration dir nsW ewW d ∧
      adaptiveNewDuration dir nsW ewW d ≤ 30) ∧
    (∀ (dir : LightDirection) (nsW ewW nsA ewA : Nat) (d : Int), 12 ≤ d → d ≤ 35 →
      12 ≤ predictiveNewDuration dir nsW ewW nsA ewA d ∧
      predictiveNewDuration dir nsW ewW nsA ewA d ≤ 35) := by
  refine ⟨fun env w a hopt => ⟨fun halg => ?_, fun halg => ?_⟩,
    fun dir nsW ewW d h1 h2 => ?_, fun dir nsW ewW nsA ewA d h1 h2 => ?_⟩
  · unfold redPhaseTimeLeft
    simp only [hopt, halg, if_true]
    exact ⟨le_trans (by norm_num) (le_max_left _ _),
      max_le (by norm_num) (min_le_left _ _)⟩
  · unfold redPhaseTimeLeft
    simp only [hopt, halg, if_true]
    exact ⟨le_trans (by norm_num) (le_max_left _ _),
      max_le (by norm_num) (min_le_left _ _)⟩
  · unfold adaptiveNewDuration
    split_ifs <;> constructor <;> omega
  · unfold predictiveNewDuration
    dsimp only
    split_ifs <;> constructor <;> omega

/-- Witness for c2_duration_bounds at concrete counts and durations. -/
theorem c2_duration_bounds_witness :
    (10 ≤ redPhaseTimeLeft ⟨true, AlgorithmType.adaptive, 0, 0, 0, 0⟩ 4 0 ∧
     redPhaseTimeLeft ⟨true, AlgorithmType.adaptive, 0, 0, 0, 0⟩ 4 0 ≤ 30) ∧
    (10 ≤ adaptiveNewDuration LightDirection.ns 3 9 20 ∧
     adaptiveNewDuration LightDirection.ns 3 9 20 ≤ 30) ∧
    (12 ≤ predictiveNewDuration LightDirection.ew 1 2 3 4 20 ∧
     predictiveNewDuration LightDirection.ew 1 2 3 4 20 ≤ 35) :=
  ⟨(c2_duration_bounds.1 ⟨true, AlgorithmType.adaptive, 0, 0, 0, 0⟩ 4 0 rfl).1 rfl,
   c2_duration_bounds.2.1 LightDirection.ns 3 9 20 (by norm_num) (by norm_num),
   c2_duration_bounds.2.2 LightDirection.ew 1 2 3 4 20 (by norm_num) (by norm_num)⟩

/-- Environment with predictive optimization and heavy north-south
waiting. -/
def envPredNs : Env := ⟨true, AlgorithmType.predictive, 10, 0, 0, 0⟩

/-- Environment with adaptive optimization and heavy east-west waiting. -/
def envAdapEw : Env := ⟨true, AlgorithmType.adaptive, 0, 10, 0, 0⟩

/-- A reachable light pair whose north-south duration was driven to 35 by
predictive optimization. -/
def c2pair : LightPair :=
  ⟨⟨LightState.green, 35, 16, 0⟩, ⟨LightState.red, 20, 0, 0⟩⟩

theorem c2step1 : optimizeStep envPredNs initLights =
    ⟨⟨LightState.green, 25, 20, 0⟩, ⟨LightState.red, 20, 0, 3⟩⟩ := by
  norm_num [optimizeStep, envPredNs, initLights, adjustLight,
    predictiveNewDuration, min_def, max_def,
    show ¬(LightState.red = LightState.green) from by decide]

theorem c2step2 :
    lightTick envOff ⟨⟨LightState.green, 25, 20, 0⟩, ⟨LightState.red, 20, 0, 3⟩⟩ =
    ⟨⟨LightState.green, 25, 19, 0⟩, ⟨LightState.red, 20, 0, 2⟩⟩ := by decide

theorem c2step3 :
    lightTick envOff ⟨⟨LightState.green, 25, 19, 0⟩, ⟨LightState.red, 20, 0, 2⟩⟩ =
    ⟨⟨LightState.green, 25, 18, 0⟩, ⟨LightState.red, 20, 0, 1⟩⟩ := by decide

theorem c2step4 : optimizeStep envPredNs
    ⟨⟨LightState.green, 25, 18, 0⟩, ⟨LightState.red, 20, 0, 1⟩⟩ =
    ⟨⟨LightState.green, 30, 18, 0⟩, ⟨LightState.red, 20, 0, 1⟩⟩ := by
  norm_num [optimizeStep, envPredNs, adjustLight,
    predictiveNewDuration, min_def, max_def,
    show ¬(LightState.red = LightState.green) from by decide]

theorem c2step5 :
    lightTick envOff ⟨⟨LightState.green, 30, 18, 0⟩, ⟨LightState.red, 20, 0, 1⟩⟩ =
    ⟨⟨LightState.green, 30, 17, 0⟩, ⟨LightState.red, 20, 0, 0⟩⟩ := by decide

theorem c2step6 :
    lightTick envOff ⟨⟨LightState.green, 30, 17, 0⟩, ⟨LightState.red, 20, 0, 0⟩⟩ =
    ⟨⟨LightState.green, 30, 16, 0⟩, ⟨LightState.red, 20, 0, 0⟩⟩ := by decide

theorem c2step7 : optimizeStep envPredNs
    ⟨⟨LightState.green, 30, 16, 0⟩, ⟨LightState.red, 20, 0, 0⟩⟩ = c2pair := by
  norm_num [optimizeStep, envPredNs, c2pair, adjustLight,
    predictiveNewDuration, min_def, max_def,
    show ¬(LightState.red = LightState.green) from by decide]

theorem c2pair_reachable : ReachableLights c2pair := by
  have h1 := ReachableLights.optimize envPredNs ReachableLights.init
  rw [c2step1] at h1
  have h2 := ReachableLights.tick envOff h1
  rw [c2step2] at h2
  have h3 := ReachableLights.tick envOff h2
  rw [c2step3] at h3
  have h4 := ReachableLights.optimize envPredNs h3
  rw [c2step4] at h4
  have h5 := ReachableLights.tick envOff h4
  rw [c2step5] at h5
  have h6 := ReachableLights.tick envOff h5
  rw [c2step6] at h6
  have h7 := ReachableLights.optimize envPredNs h6
  rw [c2step7] at h7
  exact h7

/-- Counterexample to claim C2: at the reachable pair c2pair (north-south
green with duration 35, produced by predictive optimization), one adaptive
optimization adjustment computes the green duration 33, outside adaptive's
documented clamp range of 10 to 30. -/
theorem c2_counterexample :
    ReachableLights c2pair ∧ c2pair.ns.state = LightState.green ∧
    (optimizeStep envAdapEw c2pair).ns.state = LightState.green ∧
    (optimizeStep envAdapEw c2pair).ns.duration = 33 ∧
    ¬((optimizeStep envAdapEw c2pair).ns.duration ≤ 30) := by
  refine ⟨c2pair_reachable, rfl, ?_, ?_, ?_⟩ <;>
    norm_num [optimizeStep, envAdapEw, c2pair, adjustLight,
      adaptiveNewDuration, min_def, max_def,
      show ¬(LightState.red = LightState.green) from by decide]

/-! ### Vehicles and kinematics -/

/-- Vehicle kinds of the VehicleType union. -/
inductive VehicleType
  | car
  | truck
  | bus
deriving DecidableEq, Repr

/-- Compass travel directions of the Direction union. -/
inductive Direction
  | north
  | south
  | east
  | west
deriving DecidableEq, Repr

/-- One vehicle record; the source's nested position object is flattened to
the x and y fields, the id string vehicle-n to its counter n, and the
purely cosmetic color field is omitted. -/
structure Vehicle where
  id : Nat
  type : VehicleType
  direction : Direction
  x : ℚ
  y : ℚ
  speed : ℚ
  waiting : Bool
  created : ℚ
  lane : Nat
deriving DecidableEq, Repr

/-- Vehicle length by type (line 807). -/
def vehicleLength (t : VehicleType) : ℚ :=
  match t with
  | VehicleType.car => 15
  | VehicleType.truck => 25
  | VehicleType.bus => 30

/-- Inputs of one per-vehicle kinematics update: the two light states, the
canvas size (the intersection sits at half the canvas), the wall-clock
time in milliseconds, the frame delta in seconds, and the Math.random
draw consumed if a fresh speed is assigned. -/
structure KinEnv where
  nsState : LightState
  ewState : LightState
  canvasWidth : ℚ
  canvasHeight : ℚ
  now : ℚ
  deltaTime : ℚ
  rand : ℚ
deriving Repr

/-- Intersection centre x coordinate (line 800). -/
def centerX (e : KinEnv) : ℚ := e.canvasWidth / 2

/-- Intersection centre y coordinate (line 800). -/
def centerY (e : KinEnv) : ℚ := e.canvasHeight / 2

/-- The roadWidth constant (line 801). -/
def roadWidth : ℚ := 60

/-- The laneWidth constant (line 802). -/
def laneWidth : ℚ := roadWidth / 2

/-- Whether the vehicle's axis currently has a green or yellow light
(lines 811-814). -/
def canPass (e : KinEnv) (v : Vehicle) : Prop :=
  ((v.direction = Direction.north ∨ v.direction = Direction.south) ∧
    (e.nsState = LightState.green ∨ e.nsState = LightState.yellow)) ∨
  ((v.direction = Direction.east ∨ v.direction = Direction.west) ∧
    (e.ewState = LightState.green ∨ e.ewState = LightState.yellow))

instance (e : KinEnv) (v : Vehicle) : Decidable (canPass e v) := by
  unfold canPass
  infer_instance

/-- Whether the vehicle is inside the look-ahead window before the
intersection (lines 817-822). -/
def approachingIntersection (e : KinEnv) (v : Vehicle) : Prop :=
  (v.direction = Direction.north ∧
    centerY e + roadWidth < v.y ∧ v.y < centerY e + roadWidth + 100) ∨
  (v.direction = Direction.south ∧
    v.y < centerY e - roadWidth ∧ centerY e - roadWidth - 100 < v.y) ∨
  (v.direction = Direction.east ∧
    v.x < centerX e - roadWidth ∧ centerX e - roadWidth - 100 < v.x) ∨
  (v.direction = Direction.west ∧
    centerX e + roadWidth < v.x ∧ v.x < centerX e + roadWidth + 100)

instance (e : KinEnv) (v : Vehicle) : Decidable (approachingIntersection e v) := by
  unfold approachingIntersection
  infer_instance

/-- Whether the vehicle is inside the intersection box (lines 825-828). -/
def inIntersection (e : KinEnv) (v : Vehicle) : Prop :=
  centerX e - roadWidth < v.x ∧ v.x < centerX e + roadWidth ∧
  centerY e - roadWidth < v.y ∧ v.y < centerY e + roadWidth

instance (e : KinEnv) (v : Vehicle) : Decidable (inIntersection e v) := by
  unfold inIntersection
  infer_instance

/-- Whether the other vehicle lies ahead of this one in its direction of
travel (lines 838-843). -/
def aheadOf (v o : Vehicle) : Prop :=
  (v.direction = Direction.north ∧ o.y < v.y) ∨
  (v.direction = Direction.south ∧ o.y > v.y) ∨
  (v.direction = Direction.east ∧ o.x > v.x) ∨
  (v.direction = Direction.west ∧ o.x < v.x)

instance (v o : Vehicle) : Decidable (aheadOf v o) := by
  unfold aheadOf
  infer_instance

/-- Longitudinal gap used by the car-following check (lines 834-836). -/
def gapTo (v o : Vehicle) : ℚ :=
  if v.direction = Direction.north ∨ v.direction = Direction.south then
    |o.y - v.y|
  else
    |o.x - v.x|

/-- The predicate of the vehicleAhead search (lines 831-846). -/
def isVehicleAhead (v o : Vehicle) : Prop :=
  ¬(o.id = v.id ∨ o.direction ≠ v.direction ∨ o.lane ≠ v.lane) ∧
  aheadOf v o ∧ gapTo v o < vehicleLength v.type * 2

instance (v o : Vehicle) : Decidable (isVehicleAhead v o) := by
  unfold isVehicleAhead
  infer_instance

/-- Whether the vehicleAhead search finds some vehicle (only its success
matters to the stop decision, so the find is embedded as existence over
the pre-update vehicle list). -/
def vehicleAheadPresent (prev : List Vehicle) (v : Vehicle) : Prop :=
  ∃ o ∈ prev, isVehicleAhead v o

instance (prev : List Vehicle) (v : Vehicle) : Decidable (vehicleAheadPresent prev v) := by
  unfold vehicleAheadPresent
  infer_instance

/-- The first branch condition of the decision policy (line 849). -/
def blockedByLight (e : KinEnv) (v : Vehicle) : Prop :=
  ¬ canPass e v ∧ approachingIntersection e v ∧ ¬ inIntersection e v

instance (e : KinEnv) (v : Vehicle) : Decidable (blockedByLight e v) := by
  unfold blockedByLight
  infer_instance

/-- The waiting flag and speed assigned by the decision policy (lines
848-869): blocked by a light or by a vehicle ahead gives waiting with
speed zero, otherwise the vehicle moves at a fresh random speed. -/
def stopDecision (e : KinEnv) (prev : List Vehicle) (v : Vehicle) : Bool × ℚ :=
  if blockedByLight e v then (true, 0)
  else if vehicleAheadPresent prev v then (true, 0)
  else (false, 40 + e.rand * 20)

/-- JavaScript assignment to index length - 1 of an array: on a nonempty
array it replaces the last element; on the empty array the assignment
targets index -1 and the array's elements stay unchanged. -/
def setLast (l : List ℚ) (x : ℚ) : List ℚ :=
  if l = [] then l else l.dropLast ++ [x]

/-- The wait-time buffer mutation of the decision policy (lines 848-869):
entering the light-blocked state pushes a 0 placeholder; leaving the
waiting state overwrites the last entry with (now - created) / 1000 when
that exceeds 0.5 seconds and otherwise pops the last entry. -/
def updateWaitTimes (e : KinEnv) (prev : List Vehicle) (v : Vehicle)
    (wt : List ℚ) : List ℚ :=
  if blockedByLight e v then
    if v.waiting = false then wt ++ [0] else wt
  else if vehicleAheadPresent prev v then wt
  else if v.waiting = true then
    if (e.now - v.created) / 1000 > 0.5 then
      setLast wt ((e.now - v.created) / 1000)
    else wt.dropLast
  else wt

/-- Lateral lane offset from the road centre (lines 742 and 876-888). -/
def laneOffset (lane : Nat) : ℚ := laneWidth * 0.5 + (lane : ℚ) * laneWidth

/-- Position after one frame of movement (lines 872-890): advance along
the travel axis by speed times deltaTime and snap the lateral coordinate
to the lane. -/
def movedPosition (e : KinEnv) (v : Vehicle) (speed : ℚ) : ℚ × ℚ :=
  match v.direction with
  | Direction.north => (centerX e + laneOffset v.lane, v.y - speed * e.deltaTime)
  | Direction.south => (centerX e - laneOffset v.lane, v.y + speed * e.deltaTime)
  | Direction.east => (v.x + speed * e.deltaTime, centerY e + laneOffset v.lane)
  | Direction.west => (v.x - speed * e.deltaTime, centerY e - laneOffset v.lane)

/-- The out-of-bounds removal test (lines 897-900). -/
def outOfBounds (e : KinEnv) (x y : ℚ) : Prop :=
  x < -50 ∨ x > e.canvasWidth + 50 ∨ y < -50 ∨ y > e.canvasHeight + 50

instance (e : KinEnv) (x y : ℚ) : Decidable (outOfBounds e x y) := by
  unfold outOfBounds
  infer_instance

/-- One vehicle's pass through the body of updateVehicles (lines 804-908):
the updated vehicle (none when it left the bounds and is removed), the
updated wait-time buffer, and the updated throughput window, which
receives the completion timestamp on removal. -/
def updateVehicle (e : KinEnv) (prev : List Vehicle) (v : Vehicle)
    (wt window : List ℚ) : Option Vehicle × List ℚ × List ℚ :=
  let d := stopDecision e prev v
  let wt2 := updateWaitTimes e prev v wt
  let pos := if d.1 = true then (v.x, v.y) else movedPosition e v d.2
  if outOfBounds e pos.1 pos.2 then
    (none, wt2, window ++ [e.now])
  else
    (some { v with x := pos.1, y := pos.2, speed := d.2, waiting := d.1 }, wt2, window)

/-- The map over the vehicles array (lines 804-909), threading the
wait-time and throughput buffers left to right; every vehicle's
vehicleAhead search reads the pre-update list prev, and each vehicle
consumes its own random draw rs i. -/
def updateVehiclesAux (e : KinEnv) (rs : Nat → ℚ) (prev : List Vehicle) :
    List Vehicle → Nat → List ℚ → List ℚ → List Vehicle × List ℚ × List ℚ
  | [], _, wt, window => ([], wt, window)
  | v :: vs, i, wt, window =>
    match updateVehicle { e with rand := rs i } prev v wt window with
    | (none, wt2, w2) => updateVehiclesAux e rs prev vs (i + 1) wt2 w2
    | (some v2, wt2, w2) =>
      let r := updateVehiclesAux e rs prev vs (i + 1) wt2 w2
      (v2 :: r.1, r.2)

/-- One run of updateVehicles over the whole vehicle list. -/
def updateVehicles (e : KinEnv) (rs : Nat → ℚ) (vs : List Vehicle)
    (wt window : List ℚ) : List Vehicle × List ℚ × List ℚ :=
  updateVehiclesAux e rs vs vs 0 wt window

/-! ### Statistics -/

/-- The derived statistics snapshot record. -/
structure SimulationStats where
  averageWaitTime : ℚ
  throughput : Nat
  totalVehicles : Nat
  stoppedVehicles : Nat
deriving DecidableEq, Repr

/-- The last n elements of a list, as the slice(-n) call reads them
(line 126). -/
def lastN (n : Nat) (l : List ℚ) : List ℚ := l.drop (l.length - n)

/-- One run of the updateStats interval body (lines 122-143): the snapshot
and the pruned throughput window that replaces the buffer; now is the
wall-clock time in milliseconds. -/
def updateStats (vehicles : List Vehicle) (waitTimes window : List ℚ)
    (now : ℚ) : SimulationStats × List ℚ :=
  let stoppedCount := (vehicles.filter (fun v => v.waiting)).length
  let recentWaitTimes := lastN 100 waitTimes
  let avgWaitTime : ℚ :=
    if 0 < recentWaitTimes.length then
      recentWaitTimes.sum / (recentWaitTimes.length : ℚ)
    else 0
  let oneMinuteAgo := now - 60000
  let pruned := window.filter (fun t => oneMinuteAgo < t)
  (⟨((round (avgWaitTime * 10) : Int) : ℚ) / 10, pruned.length,
    vehicles.length, stoppedCount⟩, pruned)

/-- Claim C7: the snapshot's throughput counts exactly the completion
timestamps newer than sixty seconds; the window buffer is replaced by the
pruned list before the count is taken, and every timestamp that remains
(and therefore every timestamp counted) is less than sixty seconds old. -/
theorem c7_throughput_pruning (vehicles : List Vehicle)
    (waitTimes window : List ℚ) (now : ℚ) :
    (updateStats vehicles waitTimes window now).1.throughput =
      (window.filter (fun t => now - 60000 < t)).length ∧
    (updateStats vehicles waitTimes window now).2 =
      window.filter (fun t => now - 60000 < t) ∧
    (∀ t ∈ (updateStats vehicles waitTimes window now).2, now - t < 60000) := by
  refine ⟨rfl, rfl, fun t ht => ?_⟩
  unfold updateStats at ht
  simp only [List.mem_filter, decide_eq_true_eq] at ht
  linarith [ht.2]

/-! ### The wait-time buffer is unbounded -/

/-- Wait-time buffers producible by the recording code: starting from the
empty buffer, each step is the buffer mutation some vehicle's kinematics
update performs. -/
inductive WaitBufReachable : List ℚ → Prop
  | init : WaitBufReachable []
  | step (e : KinEnv) (prev : List Vehicle) (v : Vehicle) {wt : List ℚ} :
      WaitBufReachable wt → WaitBufReachable (updateWaitTimes e prev v wt)

/-- An environment in which a northbound vehicle at the approach window
faces a red light. -/
def redEnv : KinEnv :=
  ⟨LightState.red, LightState.red, 800, 600, 1000, 1, 0⟩

/-- A car newly arriving at the north approach, not yet waiting. -/
def approachCar : Vehicle :=
  ⟨0, VehicleType.car, Direction.north, 415, 400, 50, false, 0, 0⟩

theorem approachCar_blocked : blockedByLight redEnv approachCar := by
  norm_num [blockedByLight, canPass, approachingIntersection, inIntersection,
    centerX, centerY, roadWidth, redEnv, approachCar]
  exact ⟨⟨by decide, by decide⟩, fun hc => absurd hc (by decide)⟩

theorem approachCar_pushes (wt : List ℚ) :
    updateWaitTimes redEnv [] approachCar wt = wt ++ [0] := by
  unfold updateWaitTimes
  rw [if_pos approachCar_blocked]
  simp [approachCar]

theorem waitBuf_replicate (k : Nat) : WaitBufReachable (List.replicate k (0 : ℚ)) := by
  induction k with
  | zero => exact WaitBufReachable.init
  | succ n ih =>
    have h := WaitBufReachable.step redEnv [] approachCar ih
    rw [approachCar_pushes] at h
    rwa [List.replicate_succ' n (0 : ℚ)]

/-- Counterexample to claim C8: the recording operations alone produce a
wait-time buffer of 101 entries; nothing ever evicts from the buffer, so
its length is not bounded by 100. -/
theorem c8_counterexample :
    WaitBufReachable (List.replicate 101 (0 : ℚ)) ∧
    100 < (List.replicate 101 (0 : ℚ)).length :=
  ⟨waitBuf_replicate 101, by simp⟩

/-- Claim C8 (amended): the buffer itself is unbounded (see the
counterexample); only the read side is bounded: the statistics snapshot
averages the slice of at most the 100 most recent samples, so samples
older than the most recent 100 never affect it. -/
theorem c8_stats_window_bounded (vehicles : List Vehicle)
    (old wt window : List ℚ) (now : ℚ) (h : wt.length = 100) :
    (lastN 100 wt).length ≤ 100 ∧
    updateStats vehicles (old ++ wt) window now =
      updateStats vehicles wt window now := by
  have h1 : lastN 100 (old ++ wt) = wt := by
    unfold lastN
    rw [List.length_append, h, Nat.add_sub_cancel, List.drop_left]
  have h2 : lastN 100 wt = wt := by
    unfold lastN
    rw [h, Nat.sub_self, List.drop_zero]
  refine ⟨?_, ?_⟩
  · rw [h2, h]
  · unfold updateStats
    rw [h1, h2]

/-- Witness for c8_stats_window_bounded: one stale sample in front of a
full window of 100 does not change the snapshot. -/
theorem c8_stats_window_bounded_witness :
    (lastN 100 (List.replicate 100 (0 : ℚ))).length ≤ 100 ∧
    updateStats [] ([7] ++ List.replicate 100 (0 : ℚ)) [] 0 =
      updateStats [] (List.replicate 100 (0 : ℚ)) [] 0 :=
  c8_stats_window_bounded [] [7] (List.replicate 100 (0 : ℚ)) [] 0 (by simp)

/-! ### The stop decision (claim C5) -/

/-- The light state that governs the vehicle's travel axis. -/
def axisLight (e : KinEnv) (v : Vehicle) : LightState :=
  match v.direction with
  | Direction.north => e.nsState
  | Direction.south => e.nsState
  | Direction.east => e.ewState
  | Direction.west => e.ewState

theorem canPass_iff (e : KinEnv) (v : Vehicle) :
    canPass e v ↔
      axisLight e v = LightState.green ∨ axisLight e v = LightState.yellow := by
  cases hv : v.direction <;> simp [canPass, axisLight, hv]

theorem updateVehicle_vehicle (e : KinEnv) (prev : List Vehicle) (v : Vehicle)
    (wt window : List ℚ) (v2 : Vehicle)
    (h : (updateVehicle e prev v wt window).1 = some v2) :
    v2.waiting = (stopDecision e prev v).1 ∧
    v2.speed = (stopDecision e prev v).2 := by
  unfold updateVehicle at h
  dsimp only at h
  split_ifs at h <;> dsimp only at h
  all_goals
    first
    | exact Option.noConfusion h
    | rw [← Option.some.inj h]; exact ⟨rfl, rfl⟩

/-- Claim C5: the stop decision follows the priority order: a vehicle
whose axis light is neither green nor yellow while it approaches and is
not inside the intersection waits with speed 0; otherwise a same
direction, same lane vehicle strictly ahead within twice the follower's
length forces waiting with speed 0; otherwise waiting becomes false with
a fresh speed in the range 40 to 60; and the updated vehicle record
carries exactly the decided waiting flag and speed. -/
theorem c5_stop_decision_priority (e : KinEnv) (prev : List Vehicle)
    (v : Vehicle) (h0 : 0 ≤ e.rand) (h1 : e.rand < 1) :
    (canPass e v ↔
      axisLight e v = LightState.green ∨ axisLight e v = LightState.yellow) ∧
    (vehicleAheadPresent prev v ↔ ∃ o ∈ prev, o.id ≠ v.id ∧
      o.direction = v.direction ∧ o.lane = v.lane ∧ aheadOf v o ∧
      gapTo v o < vehicleLength v.type * 2) ∧
    (blockedByLight e v → stopDecision e prev v = (true, 0)) ∧
    (¬ blockedByLight e v → vehicleAheadPresent prev v →
      stopDecision e prev v = (true, 0)) ∧
    (¬ blockedByLight e v → ¬ vehicleAheadPresent prev v →
      (stopDecision e prev v).1 = false ∧ 40 ≤ (stopDecision e prev v).2 ∧
      (stopDecision e prev v).2 < 60) ∧
    (∀ (v2 : Vehicle) (wt window : List ℚ),
      (updateVehicle e prev v wt window).1 = some v2 →
      v2.waiting = (stopDecision e prev v).1 ∧
      v2.speed = (stopDecision e prev v).2) := by
  refine ⟨canPass_iff e v, ?_, fun hb => ?_, fun hb ha => ?_, fun hb ha => ?_,
    fun v2 wt window h => updateVehicle_vehicle e prev v wt window v2 h⟩
  · unfold vehicleAheadPresent isVehicleAhead
    constructor
    · rintro ⟨o, ho, hno, hah, hgap⟩
      push_neg at hno
      exact ⟨o, ho, hno.1, hno.2.1, hno.2.2, hah, hgap⟩
    · rintro ⟨o, ho, hid, hdir, hlane, hah, hgap⟩
      refine ⟨o, ho, ?_, hah, hgap⟩
      push_neg
      exact ⟨hid, hdir, hlane⟩
  · unfold stopDecision
    rw [if_pos hb]
  · unfold stopDecision
    rw [if_neg hb, if_pos ha]
  · unfold stopDecision
    rw [if_neg hb, if_neg ha]
    refine ⟨rfl, ?_, ?_⟩
    · have : 0 ≤ e.rand * 20 := mul_nonneg h0 (by norm_num)
      dsimp only
      linarith
    · have : e.rand * 20 < 1 * 20 := by
        exact mul_lt_mul_of_pos_right h1 (by norm_num)
      dsimp only
      linarith

/-- An environment whose north-south light is green. -/
def greenEnv : KinEnv :=
  ⟨LightState.green, LightState.red, 800, 600, 5000, 1, 1/2⟩

/-- A northbound car south of the approach window, free to move. -/
def freeCar : Vehicle :=
  ⟨0, VehicleType.car, Direction.north, 415, 550, 50, false, 0, 0⟩

theorem freeCar_not_blocked : ¬ blockedByLight greenEnv freeCar := by
  rintro ⟨hc, -, -⟩
  exact hc (Or.inl ⟨Or.inl rfl, Or.inl rfl⟩)

/-- Witness for c5_stop_decision_priority: the free car gets waiting false
and the fresh speed 50 inside the bounded range. -/
theorem c5_stop_decision_priority_witness :
    (stopDecision greenEnv [] freeCar).1 = false ∧
    40 ≤ (stopDecision greenEnv [] freeCar).2 ∧
    (stopDecision greenEnv [] freeCar).2 < 60 :=
  (c5_stop_decision_priority greenEnv [] freeCar (by norm_num [greenEnv])
    (by norm_num [greenEnv])).2.2.2.2.1 freeCar_not_blocked
    (by simp [vehicleAheadPresent])

/-! ### Wait-sample recording (claim C4) -/

theorem updateVehicle_waitTimes (e : KinEnv) (prev : List Vehicle)
    (v : Vehicle) (wt window : List ℚ) :
    (updateVehicle e prev v wt window).2.1 = updateWaitTimes e prev v wt := by
  unfold updateVehicle
  dsimp only
  split_ifs <;> rfl

theorem updateVehicle_fst_wt (e : KinEnv) (prev : List Vehicle) (v : Vehicle)
    (wt window : List ℚ) :
    (updateVehicle e prev v wt window).1 = (updateVehicle e prev v [] []).1 := by
  unfold updateVehicle
  dsimp only
  split_ifs <;> rfl

/-- The vehicle part of one single-vehicle update. -/
def stepVehicle (e : KinEnv) (v : Vehicle) : Option Vehicle :=
  (updateVehicle e [v] v [] []).1

/-- A single vehicle's lifetime run: fold the per-vehicle update over a
list of frame environments with the vehicle alone in the simulation,
threading the wait-time buffer; the run ends early if the vehicle is
removed. -/
def runVehicle : List KinEnv → Vehicle → List ℚ → Option Vehicle × List ℚ
  | [], v, wt => (some v, wt)
  | e :: es, v, wt =>
    match updateVehicle e [v] v wt [] with
    | (none, wt2, _) => (none, wt2)
    | (some v2, wt2, _) => runVehicle es v2 wt2

/-- The vehicle is never waiting along the run: its flag starts false, the
stop decision leaves it false at every step, and every survivor state
continues so. -/
def NeverWaits : List KinEnv → Vehicle → Prop
  | [], v => v.waiting = false
  | e :: es, v =>
    v.waiting = false ∧ (stopDecision e [v] v).1 = false ∧
    (∀ v2, stepVehicle e v = some v2 → NeverWaits es v2)

theorem updateWaitTimes_not_waiting (e : KinEnv) (prev : List Vehicle)
    (v : Vehicle) (wt : List ℚ) (h0 : v.waiting = false)
    (hd : (stopDecision e prev v).1 = false) :
    updateWaitTimes e prev v wt = wt := by
  unfold stopDecision at hd
  unfold updateWaitTimes
  split_ifs at * <;> simp_all

theorem runVehicle_cons (e : KinEnv) (es : List KinEnv) (v : Vehicle)
    (wt : List ℚ) :
    runVehicle (e :: es) v wt =
      match updateVehicle e [v] v wt [] with
      | (none, wt2, _) => (none, wt2)
      | (some v2, wt2, _) => runVehicle es v2 wt2 := rfl

theorem runVehicle_neverWaits (es : List KinEnv) (v : Vehicle) (wt : List ℚ)
    (h : NeverWaits es v) : (runVehicle es v wt).2 = wt := by
  induction es generalizing v wt with
  | nil => rfl
  | cons e es ih =>
    obtain ⟨h0, hd, hs⟩ := h
    have hwt : (updateVehicle e [v] v wt []).2.1 = wt := by
      rw [updateVehicle_waitTimes]
      exact updateWaitTimes_not_waiting e [v] v wt h0 hd
    rw [runVehicle_cons]
    rcases hu : updateVehicle e [v] v wt [] with ⟨o, wt2, w2⟩
    have hwt2 : wt2 = wt := by rw [hu] at hwt; exact hwt
    cases o with
    | none => simpa using hwt2
    | some v2 =>
      have hstep : stepVehicle e v = some v2 := by
        unfold stepVehicle
        rw [← updateVehicle_fst_wt e [v] v wt [], hu]
      simpa [hwt2] using ih v2 wt2 (hs v2 hstep)

/-- Claim C4 (amended): a vehicle that never waits along its run leaves
the wait-time buffer untouched; entering the waiting state because of the
light appends a single 0 placeholder; and on the waiting-to-moving
transition the code overwrites the last buffer entry with
(now - created) / 1000 -- the time since the vehicle's creation, not its
elapsed waiting time -- when that value exceeds 0.5, and otherwise pops
the last entry. -/
theorem c4_wait_recording (es : List KinEnv) (v : Vehicle) (wt : List ℚ)
    (hnw : NeverWaits es v) :
    (runVehicle es v wt).2 = wt ∧
    (∀ (e : KinEnv) (prev : List Vehicle) (u : Vehicle) (w : List ℚ),
      u.waiting = false → blockedByLight e u →
      updateWaitTimes e prev u w = w ++ [0]) ∧
    (∀ (e : KinEnv) (prev : List Vehicle) (u : Vehicle) (w : List ℚ),
      u.waiting = true → ¬ blockedByLight e u → ¬ vehicleAheadPresent prev u →
      updateWaitTimes e prev u w =
        if (e.now - u.created) / 1000 > 0.5 then
          setLast w ((e.now - u.created) / 1000)
        else w.dropLast) ∧
    (∀ (e : KinEnv) (prev : List Vehicle) (u : Vehicle) (w win : List ℚ),
      (updateVehicle e prev u w win).2.1 = updateWaitTimes e prev u w) := by
  refine ⟨runVehicle_neverWaits es v wt hnw, fun e prev u w hu hb => ?_,
    fun e prev u w hu hb ha => ?_, updateVehicle_waitTimes⟩
  · unfold updateWaitTimes
    rw [if_pos hb, if_pos hu]
  · unfold updateWaitTimes
    rw [if_pos hu]
    rw [if_neg hb, if_neg ha]

theorem freeCar_decision_not_waiting :
    (stopDecision greenEnv [freeCar] freeCar).1 = false := by
  have hb : ¬ blockedByLight greenEnv freeCar := by
    rintro ⟨hc, -, -⟩
    exact hc (Or.inl ⟨Or.inl rfl, Or.inl rfl⟩)
  have ha : ¬ vehicleAheadPresent [freeCar] freeCar := by
    rintro ⟨o, ho, hno, -, -⟩
    simp only [List.mem_singleton] at ho
    exact hno (Or.inl (by rw [ho]))
  unfold stopDecision
  rw [if_neg hb, if_neg ha]

theorem freeCar_neverWaits : NeverWaits [greenEnv] freeCar := by
  refine ⟨rfl, freeCar_decision_not_waiting, fun v2 h2 => ?_⟩
  show v2.waiting = false
  unfold stepVehicle at h2
  obtain ⟨hw, -⟩ := updateVehicle_vehicle greenEnv [freeCar] freeCar [] [] v2 h2
  rw [hw, freeCar_decision_not_waiting]

/-- Witness for c4_wait_recording: a one-step run of the free car under a
green light leaves the empty buffer empty. -/
theorem c4_wait_recording_witness :
    (runVehicle [greenEnv] freeCar []).2 = ([] : List ℚ) ∧
    (∀ (e : KinEnv) (prev : List Vehicle) (u : Vehicle) (w : List ℚ),
      u.waiting = false → blockedByLight e u →
      updateWaitTimes e prev u w = w ++ [0]) ∧
    (∀ (e : KinEnv) (prev : List Vehicle) (u : Vehicle) (w : List ℚ),
      u.waiting = true → ¬ blockedByLight e u → ¬ vehicleAheadPresent prev u →
      updateWaitTimes e prev u w =
        if (e.now - u.created) / 1000 > 0.5 then
          setLast w ((e.now - u.created) / 1000)
        else w.dropLast) ∧
    (∀ (e : KinEnv) (prev : List Vehicle) (u : Vehicle) (w win : List ℚ),
      (updateVehicle e prev u w win).2.1 = updateWaitTimes e prev u w) :=
  c4_wait_recording [greenEnv] freeCar [] freeCar_neverWaits

/-- A red-light environment at 4000 ms for the first update of the
counterexample vehicle. -/
def c4envRed : KinEnv :=
  ⟨LightState.red, LightState.red, 800, 600, 4000, 1, 0⟩

/-- A green-light environment at 5000 ms for its second update. -/
def c4envGreen : KinEnv :=
  ⟨LightState.green, LightState.red, 800, 600, 5000, 1, 0⟩

/-- The counterexample vehicle: created at 0 ms, northbound at the
approach window after four seconds of driving. -/
def c4veh : Vehicle :=
  ⟨0, VehicleType.car, Direction.north, 415, 400, 50, false, 0, 0⟩

/-- The same vehicle after its first blocked update. -/
def c4vehWaiting : Vehicle :=
  ⟨0, VehicleType.car, Direction.north, 415, 400, 0, true, 0, 0⟩

theorem c4veh_blocked : blockedByLight c4envRed c4veh := by
  norm_num [blockedByLight, canPass, approachingIntersection, inIntersection,
    centerX, centerY, roadWidth, c4envRed, c4veh]
  exact ⟨⟨by decide, by decide⟩, fun hc => absurd hc (by decide)⟩

theorem c4_first_update :
    updateVehicle c4envRed [c4veh] c4veh [] [] = (some c4vehWaiting, [0], []) := by
  have hd : stopDecision c4envRed [c4veh] c4veh = (true, 0) := by
    unfold stopDecision
    rw [if_pos c4veh_blocked]
  have hw : updateWaitTimes c4envRed [c4veh] c4veh [] = [0] := by
    unfold updateWaitTimes
    rw [if_pos c4veh_blocked]
    simp [c4veh]
  unfold updateVehicle
  rw [hd, hw]
  dsimp only
  rw [if_neg]
  · rfl
  · norm_num [outOfBounds, c4envRed, c4veh]

theorem c4vehWaiting_free : ¬ blockedByLight c4envGreen c4vehWaiting := by
  rintro ⟨hc, -, -⟩
  exact hc (Or.inl ⟨Or.inl rfl, Or.inl rfl⟩)

theorem c4vehWaiting_noAhead : ¬ vehicleAheadPresent [c4vehWaiting] c4vehWaiting := by
  rintro ⟨o, ho, hno, -, -⟩
  simp only [List.mem_singleton] at ho
  exact hno (Or.inl (by rw [ho]))

theorem c4_second_update :
    updateVehicle c4envGreen [c4vehWaiting] c4vehWaiting [0] [] =
      (some ⟨0, VehicleType.car, Direction.north, 415, 360, 40, false, 0, 0⟩,
        [5], []) := by
  have hd : stopDecision c4envGreen [c4vehWaiting] c4vehWaiting = (false, 40) := by
    unfold stopDecision
    rw [if_neg c4vehWaiting_free, if_neg c4vehWaiting_noAhead]
    norm_num [c4envGreen]
  have hw : updateWaitTimes c4envGreen [c4vehWaiting] c4vehWaiting [0] = [5] := by
    unfold updateWaitTimes
    rw [if_neg c4vehWaiting_free, if_neg c4vehWaiting_noAhead]
    norm_num [c4envGreen, c4vehWaiting, setLast]
  unfold updateVehicle
  rw [hd, hw]
  dsimp only
  have hmv : movedPosition c4envGreen c4vehWaiting 40 = (415, 360) := by
    norm_num [movedPosition, centerX, laneOffset, laneWidth, roadWidth,
      c4envGreen, c4vehWaiting]
  rw [hmv]
  rw [if_neg]
  · rfl
  · norm_num [outOfBounds, c4envGreen]

/-- Counterexample to claim C4: a vehicle created at 0 ms drives for four
seconds, is blocked at 4000 ms (pushing the 0 placeholder), and resumes
at 5000 ms after one second of waiting; the recorded sample is 5 -- the
(now - created) / 1000 lifetime -- and not its total elapsed waiting time
of 1 second. -/
theorem c4_counterexample :
    (updateVehicle c4envRed [c4veh] c4veh [] []).1 = some c4vehWaiting ∧
    (updateVehicle c4envRed [c4veh] c4veh [] []).2.1 = [0] ∧
    (updateVehicle c4envGreen [c4vehWaiting] c4vehWaiting [0] []).2.1 = [5] ∧
    (c4envGreen.now - c4envRed.now) / 1000 = 1 ∧ (5 : ℚ) ≠ 1 := by
  refine ⟨?_, ?_, ?_, by norm_num [c4envGreen, c4envRed], by norm_num⟩
  · rw [c4_first_update]
  · rw [c4_first_update]
  · rw [c4_second_update]

/-! ### Countdown influence on the light update (claim C6) -/

/-- Equality of the observable light fields: state, duration and timeLeft
of both lights, everything but the countdowns. -/
def ObsEq (p q : LightPair) : Prop :=
  p.ns.state = q.ns.state ∧ p.ns.duration = q.ns.duration ∧
  p.ns.timeLeft = q.ns.timeLeft ∧ p.ew.state = q.ew.state ∧
  p.ew.duration = q.ew.duration ∧ p.ew.timeLeft = q.ew.timeLeft

/-- Observable equality together with agreement of the countdowns on
zeroness, which is all the red-to-green gates read. -/
def GateEq (p q : LightPair) : Prop :=
  ObsEq p q ∧ (p.ns.countdown = 0 ↔ q.ns.countdown = 0) ∧
  (p.ew.countdown = 0 ↔ q.ew.countdown = 0)

theorem decrementCountdown_state (l : TrafficLight) :
    (decrementCountdown l).state = l.state := by
  unfold decrementCountdown
  split_ifs <;> rfl

theorem decrementCountdown_duration (l : TrafficLight) :
    (decrementCountdown l).duration = l.duration := by
  unfold decrementCountdown
  split_ifs <;> rfl

theorem decrementCountdown_timeLeft (l : TrafficLight) :
    (decrementCountdown l).timeLeft = l.timeLeft := by
  unfold decrementCountdown
  split_ifs <;> rfl

theorem decrementPhase_gateEq {p q : LightPair} (h : ObsEq p q)
    (hns : (decrementCountdown p.ns).countdown = 0 ↔
      (decrementCountdown q.ns).countdown = 0)
    (hew : (decrementCountdown p.ew).countdown = 0 ↔
      (decrementCountdown q.ew).countdown = 0) :
    GateEq (decrementPhase p) (decrementPhase q) := by
  obtain ⟨e1, e2, e3, e4, e5, e6⟩ := h
  unfold decrementPhase
  refine ⟨⟨?_, ?_, ?_, ?_, ?_, ?_⟩, ?_, ?_⟩ <;>
    simp [decrementCountdown_state, decrementCountdown_duration,
      decrementCountdown_timeLeft, e1, e2, e3, e4, e5, e6, hns, hew]

theorem nsTransitionPhase_gateEq (env : Env) {p q : LightPair}
    (h : GateEq p q) :
    GateEq (nsTransitionPhase env p) (nsTransitionPhase env q) := by
  obtain ⟨⟨e1, e2, e3, e4, e5, e6⟩, i1, i2⟩ := h
  unfold nsTransitionPhase
  split_ifs <;> refine ⟨⟨?_, ?_, ?_, ?_, ?_, ?_⟩, ?_, ?_⟩ <;> simp_all

theorem ewTransitionPhase_gateEq (env : Env) {p q : LightPair}
    (h : GateEq p q) :
    GateEq (ewTransitionPhase env p) (ewTransitionPhase env q) := by
  obtain ⟨⟨e1, e2, e3, e4, e5, e6⟩, i1, i2⟩ := h
  unfold ewTransitionPhase
  split_ifs <;> refine ⟨⟨?_, ?_, ?_, ?_, ?_, ?_⟩, ?_, ?_⟩ <;> simp_all

theorem nsGate_gateEq {p q : LightPair} (h : GateEq p q) :
    GateEq (nsGate p) (nsGate q) := by
  obtain ⟨⟨e1, e2, e3, e4, e5, e6⟩, i1, i2⟩ := h
  unfold nsGate
  split_ifs <;> refine ⟨⟨?_, ?_, ?_, ?_, ?_, ?_⟩, ?_, ?_⟩ <;> simp_all

theorem ewGate_gateEq {p q : LightPair} (h : GateEq p q) :
    GateEq (ewGate p) (ewGate q) := by
  obtain ⟨⟨e1, e2, e3, e4, e5, e6⟩, i1, i2⟩ := h
  unfold ewGate
  split_ifs <;> refine ⟨⟨?_, ?_, ?_, ?_, ?_, ?_⟩, ?_, ?_⟩ <;> simp_all

theorem safetyCheck_gateEq {p q : LightPair} (h : GateEq p q) :
    GateEq (safetyCheck p) (safetyCheck q) := by
  obtain ⟨⟨e1, e2, e3, e4, e5, e6⟩, i1, i2⟩ := h
  unfold safetyCheck
  split_ifs <;> refine ⟨⟨?_, ?_, ?_, ?_, ?_, ?_⟩, ?_, ?_⟩ <;> simp_all

/-- Claim C6 (amended): the countdown timers are authoritative for the
red-to-green transition, not merely informational (see the
counterexample); their only influence on the light update is through
whether each countdown reads zero at the gates: two pairs equal in every
observable field whose countdowns agree on zeroness after the decrement
produce observably identical updates. -/
theorem c6_countdown_gate_only (env : Env) (p q : LightPair)
    (hobs : ObsEq p q)
    (hns : (decrementCountdown p.ns).countdown = 0 ↔
      (decrementCountdown q.ns).countdown = 0)
    (hew : (decrementCountdown p.ew).countdown = 0 ↔
      (decrementCountdown q.ew).countdown = 0) :
    ObsEq (lightTick env p) (lightTick env q) :=
  (safetyCheck_gateEq (ewGate_gateEq (nsGate_gateEq
    (ewTransitionPhase_gateEq env (nsTransitionPhase_gateEq env
      (decrementPhase_gateEq hobs hns hew)))))).1

/-- A light pair with both axes red and the east-west countdown at 5. -/
def c6pairA : LightPair :=
  ⟨⟨LightState.red, 20, 5, 0⟩, ⟨LightState.red, 20, 5, 5⟩⟩

/-- The same pair except the north-south countdown is 2 instead of 0. -/
def c6pairB : LightPair :=
  ⟨⟨LightState.red, 20, 5, 2⟩, ⟨LightState.red, 20, 5, 5⟩⟩

/-- Witness for c6_countdown_gate_only: raising the east-west countdown
from 5 to 9 (both nonzero after decrement) changes nothing observable. -/
theorem c6_countdown_gate_only_witness :
    ObsEq
      (lightTick envOff ⟨⟨LightState.red, 20, 5, 0⟩, ⟨LightState.red, 20, 5, 5⟩⟩)
      (lightTick envOff ⟨⟨LightState.red, 20, 5, 0⟩, ⟨LightState.red, 20, 5, 9⟩⟩) :=
  c6_countdown_gate_only envOff _ _ ⟨rfl, rfl, rfl, rfl, rfl, rfl⟩
    (by decide) (by decide)

/-- Counterexample to claim C6: two light pairs that differ only in the
north-south countdown diverge after a single update: with countdown 0 the
north-south light turns green, with countdown 2 it stays red, so the
countdown alters the authoritative state transitions. -/
theorem c6_counterexample :
    ObsEq c6pairA c6pairB ∧
    c6pairA.ew.countdown = c6pairB.ew.countdown ∧
    c6pairA.ns.countdown ≠ c6pairB.ns.countdown ∧
    (lightTick envOff c6pairA).ns.state = LightState.green ∧
    (lightTick envOff c6pairB).ns.state = LightState.red :=
  ⟨⟨rfl, rfl, rfl, rfl, rfl, rfl⟩, rfl, by decide, by decide, by decide⟩

/-! ### The component state and the pause guard (claim C9) -/

/-- The component state owned by SimulationSection: live vehicles, the
light pair, the metric buffers, the id counter, and the configuration
values set by the UI controls. -/
structure SystemState where
  vehicles : List Vehicle
  lights : LightPair
  waitTimes : List ℚ
  window : List ℚ
  vehicleIdCounter : Nat
  density : ℚ
  optimizationEnabled : Bool
  algorithmType : AlgorithmType
  isRunning : Bool
deriving Repr

/-- Vehicles on the north-south axis currently waiting (lines 155-157). -/
def nsWaitingCount (vs : List Vehicle) : Nat :=
  (vs.filter (fun v =>
    (v.direction = Direction.north ∨ v.direction = Direction.south) ∧
    v.waiting = true)).length

/-- Vehicles on the east-west axis currently waiting (lines 159-161). -/
def ewWaitingCount (vs : List Vehicle) : Nat :=
  (vs.filter (fun v =>
    (v.direction = Direction.east ∨ v.direction = Direction.west) ∧
    v.waiting = true)).length

/-- North-south vehicles not waiting (lines 194-196). -/
def nsApproachingCount (vs : List Vehicle) : Nat :=
  (vs.filter (fun v =>
    (v.direction = Direction.north ∨ v.direction = Direction.south) ∧
    v.waiting = false)).length

/-- East-west vehicles not waiting (lines 198-200). -/
def ewApproachingCount (vs : List Vehicle) : Nat :=
  (vs.filter (fun v =>
    (v.direction = Direction.east ∨ v.direction = Direction.west) ∧
    v.waiting = false)).length

/-- The environment the interval bodies read out of the component state. -/
def envOfState (s : SystemState) : Env :=
  ⟨s.optimizationEnabled, s.algorithmType,
   nsWaitingCount s.vehicles, ewWaitingCount s.vehicles,
   nsApproachingCount s.vehicles, ewApproachingCount s.vehicles⟩

/-- The random draws one animation frame consumes: the spawn trial roll,
the direction pick (the index Math.floor(Math.random() * 4) produces), the
two vehicle-kind rolls, the lane pick, the initial speed draw, and the
per-vehicle resume-speed draws of the kinematics pass. -/
structure FrameInput where
  now : ℚ
  deltaTime : ℚ
  spawnRoll : ℚ
  dirPick : Nat
  typeRoll1 : ℚ
  typeRoll2 : ℚ
  lanePick : Nat
  speedRoll : ℚ
  kinRolls : Nat → ℚ

/-- The direction array of generateVehicle (line 731), indexed by the pick. -/
def pickDirection (i : Nat) : Direction :=
  match i % 4 with
  | 0 => Direction.north
  | 1 => Direction.south
  | 2 => Direction.east
  | _ => Direction.west

/-- One call of generateVehicle (lines 725-784): kind with the 80 percent
car weighting, lane from the pick, spawn position at the map edge of the
chosen direction offset by the lane, speed 40 plus up to 20, waiting
false, created now. -/
def generateVehicle (s : SystemState) (f : FrameInput) (cw ch : ℚ) : Vehicle :=
  let direction := pickDirection f.dirPick
  let vtype :=
    if f.typeRoll1 > 0.8 then
      (if f.typeRoll2 > 0.5 then VehicleType.truck else VehicleType.bus)
    else VehicleType.car
  let lane := f.lanePick % 2
  let off := laneWidth * 0.5 + (lane : ℚ) * laneWidth
  let pos : ℚ × ℚ :=
    match direction with
    | Direction.north => (cw / 2 + off, ch + 20)
    | Direction.south => (cw / 2 - off, -20)
    | Direction.east => (-20, ch / 2 + off)
    | Direction.west => (cw + 20, ch / 2 - off)
  ⟨s.vehicleIdCounter, vtype, direction, pos.1, pos.2,
   40 + f.speedRoll * 20, false, f.now, lane⟩

/-- One animation frame (lines 400-436): while isRunning is false the
callback only re-queues itself and touches nothing; otherwise it may
spawn a vehicle (when spawnRoll * 100 < density * deltaTime) and then
runs the kinematics pass over all vehicles. -/
def animateFrame (cw ch : ℚ) (f : FrameInput) (s : SystemState) : SystemState :=
  if s.isRunning = false then s
  else
    let spawned :=
      if f.spawnRoll * 100 < s.density * f.deltaTime then
        { s with vehicles := s.vehicles ++ [generateVehicle s f cw ch],
                 vehicleIdCounter := s.vehicleIdCounter + 1 }
      else s
    let e : KinEnv := ⟨spawned.lights.ns.state, spawned.lights.ew.state,
      cw, ch, f.now, f.deltaTime, 0⟩
    let r := updateVehicles e f.kinRolls spawned.vehicles
      spawned.waitTimes spawned.window
    { spawned with vehicles := r.1, waitTimes := r.2.1, window := r.2.2 }

/-- The one-second light interval at the system level: the effect that
installs it returns before setting any interval while isRunning is false
(lines 248-251), so no tick fires then. -/
def lightIntervalStep (s : SystemState) : SystemState :=
  if s.isRunning = true then
    { s with lights := lightTick (envOfState s) s.lights }
  else s

/-- The two-second optimization interval at the system level, guarded by
isRunning and optimizationEnabled (lines 146-147). -/
def optimizationIntervalStep (s : SystemState) : SystemState :=
  if s.isRunning = true ∧ s.optimizationEnabled = true then
    { s with lights := optimizeStep (envOfState s) s.lights }
  else s

/-- The setDensity state setter of the density slider. -/
def setDensity (s : SystemState) (d : ℚ) : SystemState :=
  { s with density := d }

/-- The setOptimizationEnabled state setter of the optimization switch. -/
def setOptimizationEnabled (s : SystemState) (b : Bool) : SystemState :=
  { s with optimizationEnabled := b }

/-- The setAlgorithmType state setter of the algorithm tabs. -/
def setAlgorithmType (s : SystemState) (a : AlgorithmType) : SystemState :=
  { s with algorithmType := a }

/-- Claim C9: while isRunning is false the simulation is frozen: an
animation frame changes nothing (no vehicle motion or waiting updates, no
spawn, no counter change), the light and optimization interval steps
change nothing, and the three configuration setters still apply, each
changing only its own field while preserving vehicles and lights. -/
theorem c9_pause_freezes (s : SystemState) (cw ch : ℚ) (f : FrameInput)
    (d : ℚ) (b : Bool) (a : AlgorithmType) (h : s.isRunning = false) :
    animateFrame cw ch f s = s ∧
    lightIntervalStep s = s ∧
    optimizationIntervalStep s = s ∧
    (setDensity s d).density = d ∧
    (setDensity s d).vehicles = s.vehicles ∧
    (setDensity s d).lights = s.lights ∧
    (setOptimizationEnabled s b).optimizationEnabled = b ∧
    (setOptimizationEnabled s b).vehicles = s.vehicles ∧
    (setOptimizationEnabled s b).lights = s.lights ∧
    (setAlgorithmType s a).algorithmType = a ∧
    (setAlgorithmType s a).vehicles = s.vehicles ∧
    (setAlgorithmType s a).lights = s.lights := by
  refine ⟨?_, ?_, ?_, rfl, rfl, rfl, rfl, rfl, rfl, rfl, rfl, rfl⟩
  · unfold animateFrame
    rw [if_pos h]
  · unfold lightIntervalStep
    rw [if_neg]
    rw [h]
    exact fun hc => Bool.noConfusion hc
  · unfold optimizationIntervalStep
    rw [if_neg]
    rintro ⟨hc, -⟩
    rw [h] at hc
    exact Bool.noConfusion hc

/-- A paused component state. -/
def pausedState : SystemState :=
  ⟨[], initLights, [], [], 0, 40, false, AlgorithmType.adaptive, false⟩

/-- A concrete frame input. -/
def frame0 : FrameInput :=
  ⟨0, 1/60, 1/2, 0, 0, 0, 0, 0, fun _ => 0⟩

/-- Witness for c9_pause_freezes at the paused state. -/
theorem c9_pause_freezes_witness :
    animateFrame 800 600 frame0 pausedState = pausedState ∧
    lightIntervalStep pausedState = pausedState ∧
    optimizationIntervalStep pausedState = pausedState ∧
    (setDensity pausedState 70).density = 70 ∧
    (setDensity pausedState 70).vehicles = pausedState.vehicles ∧
    (setDensity pausedState 70).lights = pausedState.lights ∧
    (setOptimizationEnabled pausedState true).optimizationEnabled = true ∧
    (setOptimizationEnabled pausedState true).vehicles = pausedState.vehicles ∧
    (setOptimizationEnabled pausedState true).lights = pausedState.lights ∧
    (setAlgorithmType pausedState AlgorithmType.fixed).algorithmType =
      AlgorithmType.fixed ∧
    (setAlgorithmType pausedState AlgorithmType.fixed).vehicles =
      pausedState.vehicles ∧
    (setAlgorithmType pausedState AlgorithmType.fixed).lights =
      pausedState.lights :=
  c9_pause_freezes pausedState 800 600 frame0 70 true AlgorithmType.fixed rfl

end Flowlight
